import Mathlib

/-!
Shallow embedding of the `aryaniiil/backend` repository (src/auth.py,
src/chat.py, cli.py).

MongoDB collections are modelled as Lean lists of records kept in insertion
order: `find_one` is `List.find?` (first match in natural order), `update_one`
rewrites the first matching record, `insert_one` appends, and an upsert
updates the first match or appends a fresh record built from the filter and
the `$set` / `$setOnInsert` fields.  A missing or `null` document field is
modelled as `none`.  MongoDB object ids are modelled by a `nextId : Nat`
counter on the database state.  Timestamps (`datetime.utcnow()` and friends)
are modelled as `Nat` values passed in by the caller.

`src/auth.py` in the repository contains unresolved git conflict markers; the
embedding follows the `HEAD` side of every conflict, which is the variant
containing the preferences endpoints referenced by the specification.
-/

namespace Backend

/-- A document of the `sessions` collection (mobile/OTP scheme). -/
structure SessionRec where
  sessionId : String
  mobileNumber : String
  verified : Bool
  userDetailsCompleted : Bool := false
  createdAt : Option Nat := none
  verifiedAt : Option Nat := none
  updatedAt : Nat := 0
deriving DecidableEq

/-- A document of the `users` collection.  Mobile users carry `mobileNumber`
and `sessionId`; Google users carry `email`, `clerkSessionId` and
`authProvider = "google"`.  `userId` models the MongoDB `_id`. -/
structure UserRec where
  userId : Nat
  mobileNumber : Option String := none
  firstName : String := ""
  lastName : Option String := none
  email : Option String := none
  sessionId : Option String := none
  clerkSessionId : Option String := none
  authProvider : Option String := none
  createdAt : Option Nat := none
  updatedAt : Nat := 0
deriving DecidableEq

/-- A JSON value sitting in a preferences map: a boolean, or anything else.
The non-boolean case exists so that the `isinstance(value, bool)` check in
`update_preferences` is expressible. -/
inductive PrefVal where
  | b (v : Bool)
  | nonBool
deriving DecidableEq

/-- A preferences mapping, as a key/value list in JSON object order. -/
abbrev PrefMap := List (String × PrefVal)

/-- `DEFAULT_PREFERENCES` from src/auth.py (HEAD side). -/
def DEFAULT_PREFERENCES : PrefMap :=
  [("pushPromotions", .b true),
   ("pushProductUpdates", .b true),
   ("pushAccountActivity", .b true),
   ("emailPromotions", .b true),
   ("emailProductUpdates", .b true),
   ("emailNewsletters", .b true),
   ("emailAccountActivity", .b true),
   ("smsAccountActivity", .b true),
   ("whatsappPromotions", .b true)]

/-- A document of the `preferences` collection. -/
structure PrefsRec where
  userId : Nat
  sessionId : Option String := none
  clerkSessionId : Option String := none
  preferences : PrefMap
  createdAt : Nat := 0
  updatedAt : Nat := 0
deriving DecidableEq

/-- The auth-side database state (`mobileauth` database). -/
structure Db where
  sessions : List SessionRec
  users : List UserRec
  prefs : List PrefsRec
  nextId : Nat
deriving DecidableEq

def emptyDb : Db := { sessions := [], users := [], prefs := [], nextId := 0 }

/-- `update_one`: rewrite the first record matching `p` with `f`. -/
def updateFirst (p : α → Bool) (f : α → α) : List α → List α
  | [] => []
  | x :: xs => if p x then f x :: xs else x :: updateFirst p f xs

/-- HTTP error raised by a handler (`HTTPException(status_code, detail)`). -/
structure HttpError where
  status : Nat
  detail : String
deriving DecidableEq

deriving instance DecidableEq for Except

/-- Models Python `session_id.startswith('user_')` (the Clerk session-token
shape test) on the string's character list. -/
def isClerkSession (session_id : String) : Bool :=
  "user_".data.isPrefixOf session_id.data

/-- `get_user_by_session` from src/auth.py: resolve a session identifier of
either scheme to at most one user document. -/
def get_user_by_session (db : Db) (session_id : String) : Option UserRec :=
  if isClerkSession session_id then
    db.users.find? (fun u => u.clerkSessionId == some session_id)
  else
    match db.sessions.find? (fun s => s.sessionId == session_id && s.verified) with
    | none => none
    | some session_record =>
        db.users.find? (fun u => u.mobileNumber == some session_record.mobileNumber)

/-- `find_user_by_session` from src/chat.py (and, verbatim, from cli.py):
the same resolution logic, re-implemented in the chat module.  The database
client is assumed connected (the `if not client` 503 guard is outside the
resolution logic). -/
def find_user_by_session (db : Db) (session_id : String) : Option UserRec :=
  if isClerkSession session_id then
    db.users.find? (fun u => u.clerkSessionId == some session_id)
  else
    match db.sessions.find? (fun s => s.sessionId == session_id && s.verified) with
    | none => none
    | some session_record =>
        db.users.find? (fun u => u.mobileNumber == some session_record.mobileNumber)

/-- `validate_session` from src/auth.py: pure read returning the `success`
boolean of the response body. -/
def validate_session (db : Db) (sessionId : String) : Bool :=
  match db.sessions.find? (fun s => s.sessionId == sessionId && s.verified) with
  | none => false
  | some session_doc =>
      (db.users.find? (fun u => u.mobileNumber == some session_doc.mobileNumber)).isSome

/-- `send_otp` from src/auth.py.  The 2factor.in oracle outcome is a
parameter: `some (token, createdOn)` on `Status == "Success"` (the issued
`sessionId` plus the `CreatedOn` payload), `none` otherwise.  On oracle
success the session is upserted keyed on `mobileNumber`. -/
def send_otp (db : Db) (mobileNumber : String)
    (oracle : Option (String × Option Nat)) (now : Nat) :
    Db × Except HttpError String :=
  match oracle with
  | none => (db, .error ⟨400, "Failed to send OTP"⟩)
  | some (session_id, createdOn) =>
      let p := fun s : SessionRec => s.mobileNumber == mobileNumber
      let upd := fun s : SessionRec =>
        { s with sessionId := session_id, createdAt := createdOn,
                 verified := false, updatedAt := now }
      if db.sessions.any p then
        ({ db with sessions := updateFirst p upd db.sessions }, .ok session_id)
      else
        ({ db with sessions := db.sessions ++
            [{ sessionId := session_id, mobileNumber := mobileNumber,
               verified := false, createdAt := createdOn, updatedAt := now }] },
         .ok session_id)

/-- `verify_otp` from src/auth.py.  `oracleOk` is the 2factor.in verification
outcome, `verifiedOn` its `VerifiedOn` payload.  On success the first session
matching the `sessionId` is marked verified and the response reports whether
a user already exists for the session's mobile number. -/
def verify_otp (db : Db) (sessionId : String) (oracleOk : Bool)
    (verifiedOn : Option Nat) (now : Nat) :
    Db × Except HttpError (Bool × Bool) :=
  match db.sessions.find? (fun s => s.sessionId == sessionId) with
  | none => (db, .error ⟨400, "Invalid or expired sessionId"⟩)
  | some record =>
      if oracleOk then
        let newSessions :=
          updateFirst (fun s => s.sessionId == sessionId)
            (fun s => { s with verified := true, verifiedAt := verifiedOn,
                               updatedAt := now }) db.sessions
        let db2 := { db with sessions := newSessions }
        let userExists :=
          db.users.any (fun u => u.mobileNumber == some record.mobileNumber)
        (db2, .ok (true, userExists))
      else
        (db, .error ⟨400, "OTP verification failed"⟩)

/-- The `UserDetailsRequest` Pydantic model, after parsing: an omitted
`lastName`/`email` key and an explicit JSON `null` both parse to `none`. -/
structure UserDetailsRequest where
  sessionId : String
  mobileNumber : String
  firstName : String
  lastName : Option String := none
  email : Option String := none
deriving DecidableEq

/-- The JSON request body of `/save-user-details` before Pydantic parsing:
for the optional keys, `none` means the key is absent, `some none` means the
key is present with value `null`, `some (some s)` a string value. -/
structure RawUserDetails where
  sessionId : String
  mobileNumber : String
  firstName : String
  lastName : Option (Option String) := none
  email : Option (Option String) := none
deriving DecidableEq

/-- Pydantic parsing of the raw body into `UserDetailsRequest`
(`Optional[str] = None` collapses an absent key and an explicit `null`). -/
def parseUserDetails (r : RawUserDetails) : UserDetailsRequest :=
  { sessionId := r.sessionId, mobileNumber := r.mobileNumber,
    firstName := r.firstName,
    lastName := r.lastName.join, email := r.email.join }

/-- The `user_data` dictionary of `save_user_details`: the `$set` fields
applied to the stored user record. -/
def saveSetFields (request : UserDetailsRequest) (now : Nat) (u : UserRec) :
    UserRec :=
  { u with mobileNumber := some request.mobileNumber,
           firstName := request.firstName,
           lastName := request.lastName,
           email := request.email,
           sessionId := some request.sessionId,
           updatedAt := now }

/-- `save_user_details` from src/auth.py (HEAD side): validate the session,
check the mobile number matches, upsert the user keyed on `mobileNumber`
(setting `createdAt` only on insert), seed default preferences for a newly
created user, and flag the session `userDetailsCompleted`. -/
def save_user_details (db : Db) (request : UserDetailsRequest) (now : Nat) :
    Db × Except HttpError Unit :=
  match db.sessions.find?
      (fun s => s.sessionId == request.sessionId && s.verified) with
  | none => (db, .error ⟨400, "Invalid or unverified session"⟩)
  | some session_record =>
      if session_record.mobileNumber == request.mobileNumber then
        let existing_user :=
          db.users.find? (fun u => u.mobileNumber == some request.mobileNumber)
        let setFields := saveSetFields request now
        let newUser : UserRec :=
          { userId := db.nextId,
            mobileNumber := some request.mobileNumber,
            firstName := request.firstName,
            lastName := request.lastName,
            email := request.email,
            sessionId := some request.sessionId,
            createdAt := some now, updatedAt := now }
        let newPrefs : PrefsRec :=
          { userId := db.nextId, sessionId := some request.sessionId,
            preferences := DEFAULT_PREFERENCES,
            createdAt := now, updatedAt := now }
        let db2 :=
          match existing_user with
          | some _ =>
              let updatedUsers :=
                updateFirst
                  (fun u : UserRec => u.mobileNumber == some request.mobileNumber)
                  setFields db.users
              { db with users := updatedUsers }
          | none =>
              { db with users := db.users ++ [newUser],
                        prefs := db.prefs ++ [newPrefs],
                        nextId := db.nextId + 1 }
        let completedSessions :=
          updateFirst (fun s : SessionRec => s.sessionId == request.sessionId)
            (fun s => { s with userDetailsCompleted := true, updatedAt := now })
            db2.sessions
        let db3 := { db2 with sessions := completedSessions }
        (db3, .ok ())
      else
        (db, .error ⟨400, "Mobile number mismatch"⟩)

/-- `add_mobile_to_google_user` from src/auth.py.  Python falsiness of a
string (`if not request.mobileNumber`) is emptiness. -/
def add_mobile_to_google_user (db : Db) (clerkSessionId mobileNumber : String)
    (now : Nat) : Db × Except HttpError Unit :=
  if clerkSessionId == "" then
    (db, .error ⟨400, "Clerk session ID is required"⟩)
  else if mobileNumber == "" then
    (db, .error ⟨400, "Mobile number is required"⟩)
  else if mobileNumber.length != 10 then
    (db, .error ⟨400, "Mobile number must be 10 digits"⟩)
  else
    match db.users.find? (fun u => u.clerkSessionId == some clerkSessionId) with
    | none => (db, .error ⟨404, "User not found"⟩)
    | some _ =>
        let updatedUsers :=
          updateFirst (fun u : UserRec => u.clerkSessionId == some clerkSessionId)
            (fun u => { u with mobileNumber := some mobileNumber, updatedAt := now })
            db.users
        ({ db with users := updatedUsers }, .ok ())

/-- The preferences-collection lookup filter used by both preference
endpoints: Clerk sessions are matched on `clerkSessionId`, mobile sessions on
`sessionId`. -/
def prefsKeyFilter (session_id : String) (r : PrefsRec) : Bool :=
  if isClerkSession session_id then r.clerkSessionId == some session_id
  else r.sessionId == some session_id

/-- `get_preferences` from src/auth.py: resolve the user, then return the
stored preferences map for the session key, falling back to
`DEFAULT_PREFERENCES` when no record exists. -/
def get_preferences (db : Db) (session_id : String) :
    Except HttpError PrefMap :=
  match get_user_by_session db session_id with
  | none => .error ⟨404, "User not found"⟩
  | some _ =>
      match db.prefs.find? (prefsKeyFilter session_id) with
      | some prefs_record => .ok prefs_record.preferences
      | none => .ok DEFAULT_PREFERENCES

/-- The `update_data` dictionary of `update_preferences`, as the `$set`
fields applied to the stored preferences record (keyed per session
scheme). -/
def prefsSetRec (sessionId : String) (userId : Nat) (preferences : PrefMap)
    (now : Nat) (r : PrefsRec) : PrefsRec :=
  if isClerkSession sessionId then
    { r with userId := userId, clerkSessionId := some sessionId,
             preferences := preferences, updatedAt := now }
  else
    { r with userId := userId, sessionId := some sessionId,
             preferences := preferences, updatedAt := now }

/-- The document inserted by the upsert of `update_preferences` when no
record matches: `update_data` plus the `$setOnInsert` field. -/
def prefsInsRec (sessionId : String) (userId : Nat) (preferences : PrefMap)
    (now : Nat) : PrefsRec :=
  if isClerkSession sessionId then
    { userId := userId, clerkSessionId := some sessionId,
      preferences := preferences, createdAt := now, updatedAt := now }
  else
    { userId := userId, sessionId := some sessionId,
      preferences := preferences, createdAt := now, updatedAt := now }

/-- `update_preferences` from src/auth.py: resolve the user, reject the first
non-boolean preference value with a 400, then upsert the preferences record
keyed on the session identifier, replacing the whole stored map with the
request's map.  No check on the preference keys is performed. -/
def update_preferences (db : Db) (sessionId : String) (preferences : PrefMap)
    (now : Nat) : Db × Except HttpError Unit :=
  match get_user_by_session db sessionId with
  | none => (db, .error ⟨404, "User not found"⟩)
  | some user =>
      match preferences.find?
          (fun kv => match kv.2 with | .b _ => false | .nonBool => true) with
      | some kv =>
          (db, .error ⟨400,
            "Preference \x27" ++ kv.1 ++ "\x27 must be a boolean"⟩)
      | none =>
          let setRec := prefsSetRec sessionId user.userId preferences now
          let insRec := prefsInsRec sessionId user.userId preferences now
          let newPrefsColl :=
            if db.prefs.any (prefsKeyFilter sessionId) then
              updateFirst (prefsKeyFilter sessionId) setRec db.prefs
            else
              db.prefs ++ [insRec]
          ({ db with prefs := newPrefsColl }, .ok ())

/-- A document of a per-user chat collection (`chats_db["chat_<id>"]`). -/
structure ChatMsg where
  text : String
  sender : String
  timestamp : Nat
deriving DecidableEq

/-- The chats database: one message list per user id, in insertion order.
A user id absent from the list denotes the (empty) collection MongoDB
materialises on first insert. -/
abbrev Channels := List (Nat × List ChatMsg)

def getChannel (cs : Channels) (uid : Nat) : List ChatMsg :=
  ((cs.find? (fun c => c.1 == uid)).map (fun c => c.2)).getD []

def setChannel (cs : Channels) (uid : Nat) (msgs : List ChatMsg) : Channels :=
  if cs.any (fun c => c.1 == uid) then
    updateFirst (fun c : Nat × List ChatMsg => c.1 == uid)
      (fun c => (c.1, msgs)) cs
  else
    cs ++ [(uid, msgs)]

def botWelcomeText : String :=
  "Thank you for contacting support! An agent will be with you shortly."

/-- `send_message` from src/chat.py: resolve the user, append the
`sender=user` message, then — when the post-insert count of `sender=user`
documents equals 1 — append the one-time `sender=bot` welcome message. -/
def send_message (db : Db) (cs : Channels) (sessionId text : String)
    (now : Nat) : Channels × Except HttpError String :=
  match find_user_by_session db sessionId with
  | none => (cs, .error ⟨404, "User not found for the given session."⟩)
  | some user =>
      let chan := getChannel cs user.userId
      let chan1 := chan ++ [{ text := text, sender := "user", timestamp := now }]
      if (chan1.filter (fun m => m.sender == "user")).length == 1 then
        let chan2 := chan1 ++
          [{ text := botWelcomeText, sender := "bot", timestamp := now }]
        (setChannel cs user.userId chan2,
         .ok "First message received and bot replied.")
      else
        (setChannel cs user.userId chan1, .ok "Message received.")

/-- `upload_image` from src/chat.py.  The imgbb blob-store oracle is a
parameter: `some url` when the POST succeeds (the hosted image URL), `none`
when it fails with a `RequestException`.  `apiKeyConfigured` models the
presence of `IMGBB_API_KEY`. -/
def upload_image (db : Db) (cs : Channels) (sessionId : String)
    (apiKeyConfigured : Bool) (oracle : Option String) (now : Nat) :
    Channels × Except HttpError String :=
  if !apiKeyConfigured then
    (cs, .error ⟨500, "Image upload service is not configured."⟩)
  else
    match find_user_by_session db sessionId with
    | none => (cs, .error ⟨404, "User session not found."⟩)
    | some user =>
        match oracle with
        | none =>
            (cs, .error ⟨502, "Failed to upload image to hosting service."⟩)
        | some image_url =>
            let chan := getChannel cs user.userId
            let chan1 := chan ++
              [{ text := image_url, sender := "user", timestamp := now }]
            (setChannel cs user.userId chan1, .ok "Image uploaded successfully.")

/-- Ordering used to model MongoDB `sort("timestamp", 1)`. -/
def tsLe (a b : ChatMsg) : Prop := a.timestamp ≤ b.timestamp

instance : DecidableRel tsLe := fun a b => Nat.decLe a.timestamp b.timestamp

instance : IsTotal ChatMsg tsLe := ⟨fun a b => Nat.le_total a.timestamp b.timestamp⟩

instance : IsTrans ChatMsg tsLe := ⟨fun _ _ _ h h2 => Nat.le_trans h h2⟩

/-- The query of one poll tick of `listen_for_new_messages` in cli.py:
all messages with `sender != "admin"` and, when a cursor exists, a timestamp
strictly greater than it, sorted ascending by timestamp. -/
def pollQuery (log : List ChatMsg) (cursor : Option Nat) : List ChatMsg :=
  (log.filter (fun m =>
      m.sender != "admin" &&
      match cursor with
      | some c => c < m.timestamp
      | none => true)).insertionSort tsLe

/-- One tick of the tail/poll loop of `listen_for_new_messages` in cli.py:
fetch and display the new messages and advance `last_timestamp` to the
timestamp of the last displayed message (unchanged when nothing matched). -/
def pollTick (log : List ChatMsg) (cursor : Option Nat) :
    List ChatMsg × Option Nat :=
  let displayed := pollQuery log cursor
  (displayed,
   match displayed.getLast? with
   | some m => some m.timestamp
   | none => cursor)

/-- Cursor initialisation in `listen_for_new_messages`: the timestamp of the
latest existing message, or no cursor when the channel is empty. -/
def initCursor (log : List ChatMsg) : Option Nat :=
  ((log.insertionSort tsLe).getLast?).map (fun m => m.timestamp)

/-- `send_admin_message` from cli.py. -/
def send_admin_message (log : List ChatMsg) (text : String) (now : Nat) :
    List ChatMsg :=
  log ++ [{ text := text, sender := "admin", timestamp := now }]

/-- One auth-side operation of the mobile-OTP flow, with the oracle outcomes
and clock readings it consumed. -/
inductive AuthOp where
  | sendOtp (mobileNumber : String) (oracle : Option (String × Option Nat)) (now : Nat)
  | verifyOtp (sessionId : String) (oracleOk : Bool) (verifiedOn : Option Nat) (now : Nat)
  | saveUserDetails (request : UserDetailsRequest) (now : Nat)

def applyOp (db : Db) : AuthOp → Db
  | .sendOtp m oracle now => (send_otp db m oracle now).1
  | .verifyOtp sid ok von now => (verify_otp db sid ok von now).1
  | .saveUserDetails request now => (save_user_details db request now).1

def runOps (ops : List AuthOp) (db : Db) : Db := ops.foldl applyOp db

/-- The provider-issued token a successful `send_otp` call stores. -/
def opToken : AuthOp → Option String
  | .sendOtp _ (some (token, _)) _ => some token
  | _ => none

/-- The oracle issues pairwise-distinct session tokens across the trace
(the spec's "sessionId … provider-issued, unique key"). -/
abbrev FreshTokens (ops : List AuthOp) : Prop :=
  (ops.filterMap opToken).Nodup


/-! ### Generic lemmas about the `update_one` model -/

theorem updateFirst_map_eq {α : Type u} {β : Type v} {p : α → Bool} {f : α → α}
    {g : α → β} (h : ∀ a, g (f a) = g a) (l : List α) :
    (updateFirst p f l).map g = l.map g := by
  induction l with
  | nil => rfl
  | cons x xs ih =>
    simp only [updateFirst]
    by_cases hx : p x = true
    · simp [hx, h]
    · simp [hx, ih]

theorem find?_updateFirst {α : Type u} {p : α → Bool} {f : α → α}
    (hpf : ∀ a, p a = true → p (f a) = true) (l : List α) :
    (updateFirst p f l).find? p = (l.find? p).map f := by
  induction l with
  | nil => rfl
  | cons x xs ih =>
    simp only [updateFirst]
    by_cases hx : p x = true
    · rw [if_pos hx, List.find?_cons_of_pos _ hx,
        List.find?_cons_of_pos _ (hpf x hx)]
      rfl
    · rw [if_neg hx, List.find?_cons_of_neg _ hx, List.find?_cons_of_neg _ hx, ih]

theorem mem_map_updateFirst {α : Type u} {β : Type v} {p : α → Bool} {f : α → α}
    {g : α → β} {t : β} :
    ∀ {l : List α} {y : β}, y ∈ (updateFirst p f l).map g →
      (∀ a, g (f a) = t) → y = t ∨ y ∈ l.map g := by
  intro l
  induction l with
  | nil => intro y hy _; exact absurd hy (by simp [updateFirst])
  | cons x xs ih =>
    intro y hy hf
    simp only [updateFirst] at hy
    by_cases hx : p x = true
    · rw [if_pos hx] at hy
      rcases List.mem_cons.mp hy with h | h
      · exact Or.inl (h.trans (hf x))
      · exact Or.inr (List.mem_cons_of_mem _ h)
    · rw [if_neg hx] at hy
      rcases List.mem_cons.mp hy with h | h
      · exact Or.inr (by simp [h])
      · rcases ih h hf with h2 | h2
        · exact Or.inl h2
        · exact Or.inr (List.mem_cons_of_mem _ h2)

theorem nodup_map_updateFirst {α : Type u} {β : Type v} {p : α → Bool} {f : α → α}
    {g : α → β} {t : β} (hf : ∀ a, g (f a) = t) :
    ∀ {l : List α}, (l.map g).Nodup → t ∉ l.map g →
      ((updateFirst p f l).map g).Nodup := by
  intro l
  induction l with
  | nil => intro _ _; simp [updateFirst]
  | cons x xs ih =>
    intro hnd ht
    rw [List.map_cons, List.nodup_cons] at hnd
    rw [List.map_cons, List.mem_cons] at ht
    push_neg at ht
    simp only [updateFirst]
    by_cases hx : p x = true
    · rw [if_pos hx, List.map_cons, List.nodup_cons, hf x]
      exact ⟨ht.2, hnd.2⟩
    · rw [if_neg hx, List.map_cons, List.nodup_cons]
      refine ⟨fun hmem => ?_, ih hnd.2 ht.2⟩
      rcases mem_map_updateFirst hmem hf with h | h
      · exact ht.1 h.symm
      · exact hnd.1 h

/-! ### The session-token uniqueness invariant of the OTP flow -/

theorem sessions_ids_send_otp_nodup (db : Db) (m token : String)
    (con : Option Nat) (now : Nat)
    (hnd : (db.sessions.map SessionRec.sessionId).Nodup)
    (ht : token ∉ db.sessions.map SessionRec.sessionId) :
    ((send_otp db m (some (token, con)) now).1.sessions.map
      SessionRec.sessionId).Nodup := by
  simp only [send_otp]
  by_cases hany : (db.sessions.any fun s => s.mobileNumber == m) = true
  · simp only [hany, if_true]
    refine nodup_map_updateFirst ?_ hnd ht
    intro a; rfl
  · simp only [hany, if_false, Bool.false_eq_true]
    rw [List.map_append, List.map_cons, List.map_nil]
    rw [List.nodup_append]
    refine ⟨hnd, List.nodup_singleton _, ?_⟩
    intro a ha hb
    rw [List.mem_singleton] at hb
    have hb2 : a = token := hb
    exact ht (hb2 ▸ ha)

theorem sessions_ids_send_otp_subset (db : Db) (m token : String)
    (con : Option Nat) (now : Nat) :
    ∀ x ∈ (send_otp db m (some (token, con)) now).1.sessions.map
        SessionRec.sessionId,
      x = token ∨ x ∈ db.sessions.map SessionRec.sessionId := by
  intro x hx
  simp only [send_otp] at hx
  by_cases hany : (db.sessions.any fun s => s.mobileNumber == m) = true
  · simp only [hany, if_true] at hx
    exact mem_map_updateFirst hx (fun a => rfl)
  · simp only [hany, if_false, Bool.false_eq_true] at hx
    rw [List.map_append, List.mem_append] at hx
    rcases hx with h | h
    · exact Or.inr h
    · exact Or.inl (by simpa using h)

theorem sessions_ids_verify_otp (db : Db) (sid : String) (ok : Bool)
    (von : Option Nat) (now : Nat) :
    (verify_otp db sid ok von now).1.sessions.map SessionRec.sessionId =
      db.sessions.map SessionRec.sessionId := by
  unfold verify_otp
  split
  · rfl
  · split
    · dsimp only
      refine updateFirst_map_eq ?_ _
      intro a; rfl
    · rfl

theorem sessions_ids_save_user_details (db : Db) (request : UserDetailsRequest)
    (now : Nat) :
    (save_user_details db request now).1.sessions.map SessionRec.sessionId =
      db.sessions.map SessionRec.sessionId := by
  unfold save_user_details
  split
  · rfl
  · split
    · dsimp only
      refine Eq.trans (updateFirst_map_eq ?_ _) ?_
      · intro a; rfl
      · split <;> rfl
    · rfl

theorem filterMap_opToken_cons_none (op : AuthOp) (rest : List AuthOp)
    (h : opToken op = none) :
    (op :: rest).filterMap opToken = rest.filterMap opToken := by
  rw [List.filterMap_cons, h]

theorem filterMap_opToken_cons_some (op : AuthOp) (rest : List AuthOp)
    (token : String) (h : opToken op = some token) :
    (op :: rest).filterMap opToken = token :: rest.filterMap opToken := by
  rw [List.filterMap_cons, h]

theorem runOps_sessionIds_nodup (ops : List AuthOp) (db : Db)
    (hnd : (db.sessions.map SessionRec.sessionId).Nodup)
    (hfresh : (ops.filterMap opToken).Nodup)
    (hdisj : ∀ t ∈ ops.filterMap opToken,
      t ∉ db.sessions.map SessionRec.sessionId) :
    ((runOps ops db).sessions.map SessionRec.sessionId).Nodup := by
  induction ops generalizing db with
  | nil => exact hnd
  | cons op rest ih =>
    have hrun : runOps (op :: rest) db = runOps rest (applyOp db op) := rfl
    rw [hrun]
    cases op with
    | sendOtp m oracle now =>
        cases oracle with
        | none =>
            rw [filterMap_opToken_cons_none (AuthOp.sendOtp m none now) rest
              rfl] at hfresh hdisj
            exact ih (applyOp db (AuthOp.sendOtp m none now)) hnd hfresh hdisj
        | some pair =>
            obtain ⟨token, con⟩ := pair
            rw [filterMap_opToken_cons_some
              (AuthOp.sendOtp m (some (token, con)) now) rest token rfl]
              at hfresh hdisj
            have htok : token ∉ db.sessions.map SessionRec.sessionId :=
              hdisj token (List.mem_cons_self _ _)
            refine ih _ (sessions_ids_send_otp_nodup db m token con now hnd htok)
              (List.nodup_cons.mp hfresh).2 ?_
            intro t htm hcontra
            rcases sessions_ids_send_otp_subset db m token con now t hcontra with
              h | h
            · exact (List.nodup_cons.mp hfresh).1 (h ▸ htm)
            · exact hdisj t (List.mem_cons_of_mem _ htm) h
    | verifyOtp sid ok von now =>
        rw [filterMap_opToken_cons_none (AuthOp.verifyOtp sid ok von now) rest
          rfl] at hfresh hdisj
        refine ih _ ?_ hfresh ?_
        · rw [show (applyOp db (AuthOp.verifyOtp sid ok von now)).sessions.map
              SessionRec.sessionId = db.sessions.map SessionRec.sessionId from
              sessions_ids_verify_otp db sid ok von now]
          exact hnd
        · intro t htm
          rw [show (applyOp db (AuthOp.verifyOtp sid ok von now)).sessions.map
              SessionRec.sessionId = db.sessions.map SessionRec.sessionId from
              sessions_ids_verify_otp db sid ok von now]
          exact hdisj t htm
    | saveUserDetails request now =>
        rw [filterMap_opToken_cons_none (AuthOp.saveUserDetails request now)
          rest rfl] at hfresh hdisj
        refine ih _ ?_ hfresh ?_
        · rw [show (applyOp db (AuthOp.saveUserDetails request now)).sessions.map
              SessionRec.sessionId = db.sessions.map SessionRec.sessionId from
              sessions_ids_save_user_details db request now]
          exact hnd
        · intro t htm
          rw [show (applyOp db (AuthOp.saveUserDetails request now)).sessions.map
              SessionRec.sessionId = db.sessions.map SessionRec.sessionId from
              sessions_ids_save_user_details db request now]
          exact hdisj t htm

/-- State-level characterisation of `validate_session` under the unique
`sessionId` invariant. -/
theorem validate_session_eq_true_iff (db : Db)
    (hnd : (db.sessions.map SessionRec.sessionId).Nodup) (sid : String) :
    validate_session db sid = true ↔
      ∃ s ∈ db.sessions, s.sessionId = sid ∧ s.verified = true ∧
        ∃ u ∈ db.users, u.mobileNumber = some s.mobileNumber := by
  unfold validate_session
  cases hfind : db.sessions.find? (fun s => s.sessionId == sid && s.verified) with
  | none =>
      rw [List.find?_eq_none] at hfind
      simp only [Bool.false_eq_true, false_iff]
      rintro ⟨s, hs, hid, hver, -⟩
      exact hfind s hs (by simp [hid, hver])
  | some s0 =>
      have hs0mem : s0 ∈ db.sessions := List.mem_of_find?_eq_some hfind
      have hs0p := List.find?_some hfind
      rw [Bool.and_eq_true, beq_iff_eq] at hs0p
      constructor
      · intro hsome
        rw [Option.isSome_iff_exists] at hsome
        obtain ⟨u, hu⟩ := hsome
        refine ⟨s0, hs0mem, hs0p.1, hs0p.2, u, List.mem_of_find?_eq_some hu, ?_⟩
        have := List.find?_some hu
        rwa [beq_iff_eq] at this
      · rintro ⟨s, hs, hid, hver, u, hu, hum⟩
        have hss0 : s = s0 :=
          List.inj_on_of_nodup_map hnd hs hs0mem (hid.trans hs0p.1.symm)
        rw [Option.isSome_iff_exists]
        have : (db.users.find? (fun u =>
            u.mobileNumber == some s0.mobileNumber)).isSome = true := by
          rw [List.find?_isSome]
          exact ⟨u, hu, by simp [hss0 ▸ hum]⟩
        rw [Option.isSome_iff_exists] at this
        exact this

/-- C1: for every mobile-scheme session identifier, after any sequence of
send-otp / verify-otp / save-user-details calls (with the OTP provider
issuing pairwise-distinct session tokens), `validate_session` returns
`success = true` if and only if a verified session record with that
`sessionId` exists and a user record exists for that session's stored mobile
number; in every other case it returns `success = false` (a value, not an
error). -/
theorem validate_session_correct (ops : List AuthOp)
    (hfresh : FreshTokens ops) (sid : String) :
    validate_session (runOps ops emptyDb) sid = true ↔
      ∃ s ∈ (runOps ops emptyDb).sessions, s.sessionId = sid ∧
        s.verified = true ∧
        ∃ u ∈ (runOps ops emptyDb).users,
          u.mobileNumber = some s.mobileNumber :=
  validate_session_eq_true_iff (runOps ops emptyDb)
    (runOps_sessionIds_nodup ops emptyDb (by simp [emptyDb]) hfresh
      (by simp [emptyDb]))
    sid

def c1Ops : List AuthOp :=
  [AuthOp.sendOtp "9876543210" (some ("T1", some 1)) 1,
   AuthOp.verifyOtp "T1" true (some 2) 2,
   AuthOp.saveUserDetails
     { sessionId := "T1", mobileNumber := "9876543210",
       firstName := "Asha", lastName := none, email := none } 3]

/-- Witness for C1 at a concrete trace. -/
theorem validate_session_correct_witness :
    FreshTokens c1Ops ∧
      (validate_session (runOps c1Ops emptyDb) "T1" = true ↔
        ∃ s ∈ (runOps c1Ops emptyDb).sessions, s.sessionId = "T1" ∧
          s.verified = true ∧
          ∃ u ∈ (runOps c1Ops emptyDb).users,
            u.mobileNumber = some s.mobileNumber) :=
  ⟨by decide, validate_session_correct c1Ops (by decide) "T1"⟩

/-! ### C2: the identity resolver -/

/-- A session identifier is resolvable when some resolution path of the
dual-scheme classification reaches a user record. -/
def Resolvable (db : Db) (session_id : String) : Prop :=
  if isClerkSession session_id then
    ∃ u ∈ db.users, u.clerkSessionId = some session_id
  else
    ∃ s ∈ db.sessions, s.sessionId = session_id ∧ s.verified = true ∧
      ∃ u ∈ db.users, u.mobileNumber = some s.mobileNumber

/-- C2: the two resolver implementations agree; for every identifier that is
not resolvable (unknown Clerk id, unknown or unverified mobile session, or
no user for the session's mobile number) they return the explicit
not-found value `none` — a total function, never an exception — and a
returned user is a single record of the users collection. -/
theorem resolver_not_found_total (db : Db) (session_id : String) :
    find_user_by_session db session_id = get_user_by_session db session_id ∧
    (¬ Resolvable db session_id → get_user_by_session db session_id = none) ∧
    (∀ u, get_user_by_session db session_id = some u → u ∈ db.users) := by
  refine ⟨rfl, ?_, ?_⟩
  · intro hnr
    unfold Resolvable at hnr
    unfold get_user_by_session
    by_cases hclerk : isClerkSession session_id = true
    · rw [if_pos hclerk]
      rw [if_pos hclerk] at hnr
      rw [List.find?_eq_none]
      intro u hu hbeq
      rw [beq_iff_eq] at hbeq
      exact hnr ⟨u, hu, hbeq⟩
    · rw [if_neg hclerk]
      rw [if_neg hclerk] at hnr
      cases hfind : db.sessions.find?
          (fun s => s.sessionId == session_id && s.verified) with
      | none => rfl
      | some s0 =>
          have hs0mem := List.mem_of_find?_eq_some hfind
          have hs0p := List.find?_some hfind
          rw [Bool.and_eq_true, beq_iff_eq] at hs0p
          rw [List.find?_eq_none]
          intro u hu hbeq
          rw [beq_iff_eq] at hbeq
          exact hnr ⟨s0, hs0mem, hs0p.1, hs0p.2, u, hu, hbeq⟩
  · intro u hu
    unfold get_user_by_session at hu
    by_cases hclerk : isClerkSession session_id = true
    · rw [if_pos hclerk] at hu
      exact List.mem_of_find?_eq_some hu
    · rw [if_neg hclerk] at hu
      cases hfind : db.sessions.find?
          (fun s => s.sessionId == session_id && s.verified) with
      | none => rw [hfind] at hu; exact absurd hu (by simp)
      | some s0 => rw [hfind] at hu; exact List.mem_of_find?_eq_some hu

def c2Db : Db :=
  { sessions := [{ sessionId := "T9", mobileNumber := "9999999999",
                   verified := false }],
    users := [], prefs := [], nextId := 0 }

/-- Witness for C2: an unverified session and an unknown Clerk id both
resolve to `none`. -/
theorem resolver_not_found_total_witness :
    (find_user_by_session c2Db "T9" = get_user_by_session c2Db "T9" ∧
      (¬ Resolvable c2Db "T9" → get_user_by_session c2Db "T9" = none) ∧
      (∀ u, get_user_by_session c2Db "T9" = some u → u ∈ c2Db.users)) ∧
    ¬ Resolvable c2Db "T9" ∧ get_user_by_session c2Db "T9" = none :=
  ⟨resolver_not_found_total c2Db "T9",
   by unfold Resolvable; decide,
   by decide⟩

/-! ### C3: the one-time bot welcome message -/

theorem getChannel_setChannel (cs : Channels) (uid : Nat)
    (msgs : List ChatMsg) :
    getChannel (setChannel cs uid msgs) uid = msgs := by
  unfold getChannel setChannel
  by_cases hany : (cs.any fun c => c.1 == uid) = true
  · rw [if_pos hany]
    have hfind : (cs.find? fun c : Nat × List ChatMsg => c.1 == uid).isSome := by
      rw [List.find?_isSome]
      exact List.any_eq_true.mp hany
    rw [Option.isSome_iff_exists] at hfind
    obtain ⟨c0, hc0⟩ := hfind
    have hupd : (updateFirst (fun c : Nat × List ChatMsg => c.1 == uid)
        (fun c => (c.1, msgs)) cs).find? (fun c => c.1 == uid) =
        (cs.find? (fun c : Nat × List ChatMsg => c.1 == uid)).map
          (fun c => (c.1, msgs)) :=
      by refine find?_updateFirst ?_ cs; intro a ha; exact ha
    rw [hupd, hc0]
    rfl
  · rw [if_neg hany]
    have hfind : (cs.find? fun c : Nat × List ChatMsg => c.1 == uid) = none := by
      rw [List.find?_eq_none]
      intro c hc hcontra
      exact hany (List.any_eq_true.mpr ⟨c, hc, hcontra⟩)
    rw [List.find?_append, hfind, Option.none_or,
      List.find?_cons_of_pos _ (by simp)]
    rfl

def userMsg (text : String) (now : Nat) : ChatMsg :=
  { text := text, sender := "user", timestamp := now }

def botMsg (now : Nat) : ChatMsg :=
  { text := botWelcomeText, sender := "bot", timestamp := now }

/-- C3: whenever the session resolves to a user, sending a message whose
post-insert count of `sender=user` messages equals 1 appends exactly one
`sender=bot` welcome message immediately after it, and a send whose
post-insert user-message count exceeds 1 appends no bot message. -/
theorem send_message_bot_welcome (db : Db) (cs : Channels)
    (sessionId text : String) (now : Nat) (user : UserRec)
    (hu : find_user_by_session db sessionId = some user) :
    (((getChannel cs user.userId ++ [userMsg text now]).filter
        (fun m => m.sender == "user")).length = 1 →
      getChannel (send_message db cs sessionId text now).1 user.userId =
        getChannel cs user.userId ++ [userMsg text now, botMsg now]) ∧
    (((getChannel cs user.userId ++ [userMsg text now]).filter
        (fun m => m.sender == "user")).length > 1 →
      getChannel (send_message db cs sessionId text now).1 user.userId =
        getChannel cs user.userId ++ [userMsg text now]) := by
  unfold send_message
  rw [hu]
  dsimp only
  simp only [userMsg, botMsg]
  by_cases hcount : (((getChannel cs user.userId ++
      [({ text := text, sender := "user", timestamp := now } : ChatMsg)]).filter
        (fun m => m.sender == "user")).length == 1) = true
  · rw [if_pos hcount]
    rw [beq_iff_eq] at hcount
    constructor
    · intro _
      rw [getChannel_setChannel, List.append_assoc]
      rfl
    · intro hgt
      rw [hcount] at hgt
      exact absurd hgt (by decide)
  · rw [if_neg hcount]
    rw [beq_iff_eq] at hcount
    constructor
    · intro heq; exact absurd heq hcount
    · intro _
      rw [getChannel_setChannel]

def c3Db : Db :=
  { sessions := [{ sessionId := "T1", mobileNumber := "9876543210",
                   verified := true }],
    users := [{ userId := 0, mobileNumber := some "9876543210",
                firstName := "Asha" }],
    prefs := [], nextId := 1 }

def c3User : UserRec :=
  { userId := 0, mobileNumber := some "9876543210", firstName := "Asha" }

/-- Witness for C3 on an empty channel. -/
theorem send_message_bot_welcome_witness :
    find_user_by_session c3Db "T1" = some c3User ∧
    ((((getChannel [] c3User.userId ++ [userMsg "hi" 5]).filter
          (fun m => m.sender == "user")).length = 1 →
        getChannel (send_message c3Db [] "T1" "hi" 5).1 c3User.userId =
          getChannel [] c3User.userId ++ [userMsg "hi" 5, botMsg 5]) ∧
      (((getChannel [] c3User.userId ++ [userMsg "hi" 5]).filter
          (fun m => m.sender == "user")).length > 1 →
        getChannel (send_message c3Db [] "T1" "hi" 5).1 c3User.userId =
          getChannel [] c3User.userId ++ [userMsg "hi" 5])) :=
  ⟨by decide, send_message_bot_welcome c3Db [] "T1" "hi" 5 c3User (by decide)⟩

/-! ### C4: save-user-details overwrite semantics -/

def c4Db : Db :=
  { sessions := [{ sessionId := "S1", mobileNumber := "9876543210",
                   verified := true }],
    users := [{ userId := 0, mobileNumber := some "9876543210",
                firstName := "Asha", lastName := some "Doe",
                email := some "asha@example.com", sessionId := some "S1",
                createdAt := some 1 }],
    prefs := [], nextId := 1 }

/-- An HTTP body for `/save-user-details` that omits the `lastName` and
`email` keys entirely. -/
def c4Raw : RawUserDetails :=
  { sessionId := "S1", mobileNumber := "9876543210", firstName := "Asha",
    lastName := none, email := none }

/-- Counterexample to C4 as stated: the stored `lastName` is `"Doe"` and the
request omits the `lastName` key, yet after the call the stored `lastName`
is `null` — the omitted key does overwrite the stored field, because the
Pydantic model parses an absent key and an explicit `null` identically. -/
theorem save_user_details_overwrites_on_omitted_key :
    c4Raw.lastName = none ∧
    c4Db.users.map UserRec.lastName = [some "Doe"] ∧
    (save_user_details c4Db (parseUserDetails c4Raw) 5).2 = .ok () ∧
    (save_user_details c4Db (parseUserDetails c4Raw) 5).1.users.map
      UserRec.lastName = [none] := by
  decide

/-- C4, amended: whenever the session check passes, *every* stored field of
the located user is overwritten with the parsed request value — `lastName`
and `email` are set to the parsed value `Option.join` of the raw field, so an
omitted key and an explicit `null` both overwrite the stored value with
`null` (the two are indistinguishable after parsing); `createdAt` is kept for
an existing user and set to the insertion time only on first insert. -/
theorem save_user_details_overwrite_semantics (db : Db) (raw : RawUserDetails)
    (now : Nat) (srec : SessionRec)
    (hsess : db.sessions.find? (fun s =>
      s.sessionId == raw.sessionId && s.verified) = some srec)
    (hmob : srec.mobileNumber = raw.mobileNumber) :
    (save_user_details db (parseUserDetails raw) now).2 = .ok () ∧
    ∃ u2, (save_user_details db (parseUserDetails raw) now).1.users.find?
        (fun u => u.mobileNumber == some raw.mobileNumber) = some u2 ∧
      u2.firstName = raw.firstName ∧
      u2.lastName = raw.lastName.join ∧
      u2.email = raw.email.join ∧
      u2.createdAt = (match db.users.find?
          (fun u => u.mobileNumber == some raw.mobileNumber) with
        | some u0 => u0.createdAt
        | none => some now) := by
  simp only [save_user_details, parseUserDetails, hsess, hmob,
    beq_self_eq_true, if_true]
  cases hex : db.users.find? (fun u => u.mobileNumber == some raw.mobileNumber) with
  | some u0 =>
      simp only [hex]
      refine ⟨trivial, ?_⟩
      have hupd : (updateFirst
          (fun u : UserRec => u.mobileNumber == some raw.mobileNumber)
          (saveSetFields (parseUserDetails raw) now) db.users).find?
            (fun u => u.mobileNumber == some raw.mobileNumber) =
          (db.users.find?
            (fun u => u.mobileNumber == some raw.mobileNumber)).map
              (saveSetFields (parseUserDetails raw) now) := by
        refine find?_updateFirst ?_ _
        intro a _
        simp [saveSetFields, parseUserDetails]
      simp only [parseUserDetails] at hupd
      refine ⟨saveSetFields (parseUserDetails raw) now u0, ?_, ?_, ?_, ?_, ?_⟩
      · simp only [parseUserDetails]
        rw [hupd, hex]
        rfl
      · simp [saveSetFields, parseUserDetails]
      · simp [saveSetFields, parseUserDetails]
      · simp [saveSetFields, parseUserDetails]
      · simp [saveSetFields]
  | none =>
      simp only [hex]
      refine ⟨trivial, ?_⟩
      rw [List.find?_append, hex, Option.none_or,
        List.find?_cons_of_pos _ (by simp)]
      exact ⟨_, rfl, rfl, rfl, rfl, rfl⟩

def c4DbNew : Db :=
  { sessions := [{ sessionId := "S2", mobileNumber := "9123456789",
                   verified := true }],
    users := [], prefs := [], nextId := 0 }

def c4RawNew : RawUserDetails :=
  { sessionId := "S2", mobileNumber := "9123456789", firstName := "Ravi",
    lastName := some (some "Kumar"), email := some none }

/-- Witness for the amended C4 on a first-insert request. -/
theorem save_user_details_overwrite_semantics_witness :
    c4DbNew.sessions.find? (fun s =>
      s.sessionId == c4RawNew.sessionId && s.verified) =
        some { sessionId := "S2", mobileNumber := "9123456789",
               verified := true } ∧
    ((save_user_details c4DbNew (parseUserDetails c4RawNew) 7).2 = .ok () ∧
      ∃ u2, (save_user_details c4DbNew (parseUserDetails c4RawNew) 7).1.users.find?
          (fun u => u.mobileNumber == some c4RawNew.mobileNumber) = some u2 ∧
        u2.firstName = c4RawNew.firstName ∧
        u2.lastName = c4RawNew.lastName.join ∧
        u2.email = c4RawNew.email.join ∧
        u2.createdAt = (match c4DbNew.users.find?
            (fun u => u.mobileNumber == some c4RawNew.mobileNumber) with
          | some u0 => u0.createdAt
          | none => some 7)) :=
  ⟨by decide,
   save_user_details_overwrite_semantics c4DbNew c4RawNew 7
     { sessionId := "S2", mobileNumber := "9123456789", verified := true }
     (by decide) (by decide)⟩

/-! ### C5: update-preferences validation -/

def c5Db : Db :=
  { sessions := [],
    users := [{ userId := 0, firstName := "Gina", email := some "g@example.com",
                clerkSessionId := some "user_g1",
                authProvider := some "google" }],
    prefs := [], nextId := 1 }

/-- Counterexample to C5 as stated: a request whose preferences map holds the
key `"notARealFlag"`, which is outside the fixed 9-flag set, is accepted
(`success`), because `update_preferences` checks only that each value is a
boolean and never checks the keys. -/
theorem update_preferences_accepts_unknown_key :
    (update_preferences c5Db "user_g1" [("notARealFlag", PrefVal.b true)] 7).2 =
      .ok () ∧
    "notARealFlag" ∉ DEFAULT_PREFERENCES.map Prod.fst := by
  decide

/-- C5, amended: for a resolvable session, `update_preferences` accepts a
request exactly when every preference value is a boolean; a request with a
non-boolean value is rejected with a 400 naming its first offending key.
Keys are not validated: maps with keys outside the 9 fixed flags are
accepted. -/
theorem update_preferences_validation (db : Db) (sessionId : String)
    (preferences : PrefMap) (now : Nat) (user : UserRec)
    (hu : get_user_by_session db sessionId = some user) :
    ((update_preferences db sessionId preferences now).2 = .ok () ↔
      ∀ kv ∈ preferences, ∃ v, kv.2 = PrefVal.b v) ∧
    (∀ kv, preferences.find?
        (fun kv => match kv.2 with | .b _ => false | .nonBool => true) =
          some kv →
      (update_preferences db sessionId preferences now).2 =
        .error ⟨400, "Preference \x27" ++ kv.1 ++ "\x27 must be a boolean"⟩) := by
  simp only [update_preferences, hu]
  cases hfind : preferences.find?
      (fun kv => match kv.2 with | .b _ => false | .nonBool => true) with
  | none =>
      simp only [hfind]
      constructor
      · rw [List.find?_eq_none] at hfind
        constructor
        · intro _ kv hkv
          have := hfind kv hkv
          cases h2 : kv.2 with
          | b v => exact ⟨v, rfl⟩
          | nonBool => exact absurd (by simp [h2]) this
        · intro _
          by_cases hclerk : isClerkSession sessionId = true <;>
            simp [hclerk]
      · intro kv hkv
        exact absurd hkv (by simp)
  | some kv0 =>
      simp only [hfind]
      constructor
      · have hmem := List.mem_of_find?_eq_some hfind
        have hp := List.find?_some hfind
        have hnb : kv0.2 = PrefVal.nonBool := by
          cases h2 : kv0.2 with
          | b v => rw [h2] at hp; exact absurd hp (by simp)
          | nonBool => rfl
        constructor
        · intro hok
          exact absurd hok (by simp)
        · intro hall
          obtain ⟨v, hv⟩ := hall kv0 hmem
          rw [hv] at hnb
          exact absurd hnb (by simp)
      · intro kv hkv
        obtain rfl : kv0 = kv := by
          injection hkv
        rfl

/-- Witness for the amended C5. -/
theorem update_preferences_validation_witness :
    get_user_by_session c5Db "user_g1" =
      some { userId := 0, firstName := "Gina", email := some "g@example.com",
             clerkSessionId := some "user_g1",
             authProvider := some "google" } ∧
    (((update_preferences c5Db "user_g1"
          [("pushPromotions", PrefVal.nonBool)] 7).2 = .ok () ↔
        ∀ kv ∈ [("pushPromotions", PrefVal.nonBool)], ∃ v, kv.2 = PrefVal.b v) ∧
      (∀ kv, [("pushPromotions", PrefVal.nonBool)].find?
          (fun kv => match kv.2 with | .b _ => false | .nonBool => true) =
            some kv →
        (update_preferences c5Db "user_g1"
            [("pushPromotions", PrefVal.nonBool)] 7).2 =
          .error ⟨400,
            "Preference \x27" ++ kv.1 ++ "\x27 must be a boolean"⟩)) :=
  ⟨by decide,
   update_preferences_validation c5Db "user_g1"
     [("pushPromotions", PrefVal.nonBool)] 7
     { userId := 0, firstName := "Gina", email := some "g@example.com",
       clerkSessionId := some "user_g1", authProvider := some "google" }
     (by decide)⟩

/-! ### C6: mobile-number length validation on account linking -/

def c6Db : Db :=
  { sessions := [],
    users := [{ userId := 0, firstName := "Gina", email := some "g@example.com",
                clerkSessionId := some "user_g1",
                authProvider := some "google" }],
    prefs := [], nextId := 1 }

/-- Counterexample to C6 as stated: the empty mobile number string (length
≠ 10) is rejected by the earlier required-field guard with detail
"Mobile number is required", not by the `InvalidMobileFormat` length check
("Mobile number must be 10 digits"). -/
theorem add_mobile_empty_string_not_format_error :
    ("" : String).length ≠ 10 ∧
    (add_mobile_to_google_user c6Db "user_g1" "" 3).2 =
      .error ⟨400, "Mobile number is required"⟩ ∧
    (add_mobile_to_google_user c6Db "user_g1" "" 3).2 ≠
      .error ⟨400, "Mobile number must be 10 digits"⟩ := by
  decide

/-- C6, amended: with a Clerk session id supplied, every *non-empty* mobile
number string whose length is not 10 is rejected with the
`InvalidMobileFormat` 400 ("Mobile number must be 10 digits"); the empty
string is rejected earlier with the required-field 400; digit content is not
validated: any string of length 10 passes the check and, when a user exists
for the `clerkSessionId`, the stored user's `mobileNumber` is set to it. -/
theorem add_mobile_length_check (db : Db) (clerkSessionId mobileNumber : String)
    (now : Nat) (hc : clerkSessionId ≠ "") :
    (mobileNumber ≠ "" → mobileNumber.length ≠ 10 →
      add_mobile_to_google_user db clerkSessionId mobileNumber now =
        (db, .error ⟨400, "Mobile number must be 10 digits"⟩)) ∧
    (mobileNumber = "" →
      add_mobile_to_google_user db clerkSessionId mobileNumber now =
        (db, .error ⟨400, "Mobile number is required"⟩)) ∧
    (mobileNumber.length = 10 →
      ∀ u0, db.users.find?
          (fun u => u.clerkSessionId == some clerkSessionId) = some u0 →
        (add_mobile_to_google_user db clerkSessionId mobileNumber now).2 =
          .ok () ∧
        ∃ u2, (add_mobile_to_google_user db clerkSessionId
              mobileNumber now).1.users.find?
            (fun u => u.clerkSessionId == some clerkSessionId) = some u2 ∧
          u2.mobileNumber = some mobileNumber) := by
  have hcbeq : (clerkSessionId == "") = false := by
    rw [beq_eq_false_iff_ne]
    exact hc
  refine ⟨?_, ?_, ?_⟩
  · intro hm hlen
    have hmbeq : (mobileNumber == "") = false := by
      rw [beq_eq_false_iff_ne]
      exact hm
    have hlbeq : (mobileNumber.length != 10) = true := by
      rw [bne_iff_ne]
      exact hlen
    simp [add_mobile_to_google_user, hcbeq, hmbeq, hlbeq]
  · intro hm
    subst hm
    simp [add_mobile_to_google_user, hcbeq]
  · intro hlen u0 hu0
    have hmbeq : (mobileNumber == "") = false := by
      rw [beq_eq_false_iff_ne]
      intro h
      rw [h] at hlen
      exact absurd hlen (by decide)
    have hlbeq : (mobileNumber.length != 10) = false := by
      simp [hlen]
    simp only [add_mobile_to_google_user, hcbeq, hmbeq, hlbeq, Bool.false_eq_true,
      if_false, hu0]
    refine ⟨trivial, ?_⟩
    have hupd : (updateFirst
        (fun u : UserRec => u.clerkSessionId == some clerkSessionId)
        (fun u => { u with mobileNumber := some mobileNumber,
                           updatedAt := now }) db.users).find?
          (fun u => u.clerkSessionId == some clerkSessionId) =
        (db.users.find?
          (fun u => u.clerkSessionId == some clerkSessionId)).map
            (fun u => { u with mobileNumber := some mobileNumber,
                               updatedAt := now }) := by
      refine find?_updateFirst ?_ _
      intro a ha
      exact ha
    rw [hupd, hu0]
    exact ⟨_, rfl, rfl⟩

def c6Long : String := "98765X3210"

/-- Witness for the amended C6, including a 10-character non-digit string
being accepted. -/
theorem add_mobile_length_check_witness :
    ("user_g1" : String) ≠ "" ∧
    ((("98" : String) ≠ "" → ("98" : String).length ≠ 10 →
      add_mobile_to_google_user c6Db "user_g1" "98" 3 =
        (c6Db, .error ⟨400, "Mobile number must be 10 digits"⟩)) ∧
    (("98" : String) = "" →
      add_mobile_to_google_user c6Db "user_g1" "98" 3 =
        (c6Db, .error ⟨400, "Mobile number is required"⟩)) ∧
    (("98" : String).length = 10 →
      ∀ u0, c6Db.users.find?
          (fun u => u.clerkSessionId == some "user_g1") = some u0 →
        (add_mobile_to_google_user c6Db "user_g1" "98" 3).2 = .ok () ∧
        ∃ u2, (add_mobile_to_google_user c6Db "user_g1" "98" 3).1.users.find?
            (fun u => u.clerkSessionId == some "user_g1") = some u2 ∧
          u2.mobileNumber = some "98")) ∧
    (add_mobile_to_google_user c6Db "user_g1" c6Long 3).2 = .ok () :=
  ⟨by decide,
   add_mobile_length_check c6Db "user_g1" "98" 3 (by decide),
   by decide⟩

/-! ### C7: failed image upload leaves the channel untouched -/

/-- C7: for a resolved user, when the blob-store oracle call fails,
`upload_image` fails with the 502 `UploadFailed` error and appends nothing:
the chats state — in particular every channel's message count — is exactly
as before the call. -/
theorem upload_image_oracle_failure (db : Db) (cs : Channels)
    (sessionId : String) (now : Nat) (user : UserRec)
    (hu : find_user_by_session db sessionId = some user) :
    upload_image db cs sessionId true none now =
      (cs, .error ⟨502, "Failed to upload image to hosting service."⟩) ∧
    ∀ uid, (getChannel (upload_image db cs sessionId true none now).1
        uid).length = (getChannel cs uid).length := by
  have heq : upload_image db cs sessionId true none now =
      (cs, .error ⟨502, "Failed to upload image to hosting service."⟩) := by
    simp [upload_image, hu]
  exact ⟨heq, fun uid => by rw [heq]⟩

/-- Witness for C7. -/
theorem upload_image_oracle_failure_witness :
    find_user_by_session c3Db "T1" = some c3User ∧
    (upload_image c3Db [(0, [userMsg "old" 1])] "T1" true none 9 =
      ([(0, [userMsg "old" 1])],
        .error ⟨502, "Failed to upload image to hosting service."⟩) ∧
    ∀ uid, (getChannel (upload_image c3Db [(0, [userMsg "old" 1])] "T1" true
        none 9).1 uid).length =
      (getChannel [(0, [userMsg "old" 1])] uid).length) :=
  ⟨by decide,
   upload_image_oracle_failure c3Db [(0, [userMsg "old" 1])] "T1" 9 c3User
     (by decide)⟩

/-! ### C10: get-preferences falls back to the default flags -/

/-- C10: when the session resolves to a user but no preferences record
exists for the session key, `get_preferences` does not fail with a 404 — it
returns `DEFAULT_PREFERENCES`, the fixed map of all 9 flags set to true. -/
theorem get_preferences_returns_defaults (db : Db) (session_id : String)
    (user : UserRec)
    (hu : get_user_by_session db session_id = some user)
    (hnone : db.prefs.find? (prefsKeyFilter session_id) = none) :
    get_preferences db session_id = .ok DEFAULT_PREFERENCES ∧
    DEFAULT_PREFERENCES.map Prod.fst =
      ["pushPromotions", "pushProductUpdates", "pushAccountActivity",
       "emailPromotions", "emailProductUpdates", "emailNewsletters",
       "emailAccountActivity", "smsAccountActivity", "whatsappPromotions"] ∧
    ∀ kv ∈ DEFAULT_PREFERENCES, kv.2 = PrefVal.b true := by
  refine ⟨?_, by decide, by decide⟩
  simp [get_preferences, hu, hnone]

/-- Witness for C10. -/
theorem get_preferences_returns_defaults_witness :
    get_user_by_session c5Db "user_g1" =
      some { userId := 0, firstName := "Gina", email := some "g@example.com",
             clerkSessionId := some "user_g1",
             authProvider := some "google" } ∧
    c5Db.prefs.find? (prefsKeyFilter "user_g1") = none ∧
    (get_preferences c5Db "user_g1" = .ok DEFAULT_PREFERENCES ∧
      DEFAULT_PREFERENCES.map Prod.fst =
        ["pushPromotions", "pushProductUpdates", "pushAccountActivity",
         "emailPromotions", "emailProductUpdates", "emailNewsletters",
         "emailAccountActivity", "smsAccountActivity", "whatsappPromotions"] ∧
      ∀ kv ∈ DEFAULT_PREFERENCES, kv.2 = PrefVal.b true) :=
  ⟨by decide, by decide,
   get_preferences_returns_defaults c5Db "user_g1"
     { userId := 0, firstName := "Gina", email := some "g@example.com",
       clerkSessionId := some "user_g1", authProvider := some "google" }
     (by decide) (by decide)⟩

/-! ### C8: preferences round trip -/

theorem get_user_by_session_prefs_frame (db : Db) (prefs2 : List PrefsRec)
    (n2 : Nat) (sid : String) :
    get_user_by_session
      { sessions := db.sessions, users := db.users, prefs := prefs2,
        nextId := n2 } sid = get_user_by_session db sid := rfl

theorem prefsKeyFilter_setRec (sessionId : String) (userId : Nat)
    (preferences : PrefMap) (now : Nat) (r : PrefsRec) :
    prefsKeyFilter sessionId
      (prefsSetRec sessionId userId preferences now r) = true := by
  by_cases hc : isClerkSession sessionId = true <;>
    simp [prefsKeyFilter, prefsSetRec, hc]

theorem prefsKeyFilter_insRec (sessionId : String) (userId : Nat)
    (preferences : PrefMap) (now : Nat) :
    prefsKeyFilter sessionId
      (prefsInsRec sessionId userId preferences now) = true := by
  by_cases hc : isClerkSession sessionId = true <;>
    simp [prefsKeyFilter, prefsInsRec, hc]

theorem prefsSetRec_preferences (sessionId : String) (userId : Nat)
    (preferences : PrefMap) (now : Nat) (r : PrefsRec) :
    (prefsSetRec sessionId userId preferences now r).preferences =
      preferences := by
  by_cases hc : isClerkSession sessionId = true <;> simp [prefsSetRec, hc]

theorem prefsInsRec_preferences (sessionId : String) (userId : Nat)
    (preferences : PrefMap) (now : Nat) :
    (prefsInsRec sessionId userId preferences now).preferences =
      preferences := by
  by_cases hc : isClerkSession sessionId = true <;> simp [prefsInsRec, hc]

/-- C8: for a resolvable session and a full 9-flag all-boolean preferences
map, a successful `update_preferences` followed by `get_preferences` on the
same session identifier returns exactly the map that was written. -/
theorem preferences_round_trip (db : Db) (sessionId : String) (m : PrefMap)
    (now : Nat)
    (hfull : m.map Prod.fst = DEFAULT_PREFERENCES.map Prod.fst)
    (hok : (update_preferences db sessionId m now).2 = .ok ()) :
    get_preferences (update_preferences db sessionId m now).1 sessionId =
      .ok m := by
  cases hu : get_user_by_session db sessionId with
  | none => rw [update_preferences, hu] at hok; exact absurd hok (by simp)
  | some user =>
      cases hfind : m.find?
          (fun kv => match kv.2 with | .b _ => false | .nonBool => true) with
      | some kv => simp [update_preferences, hu, hfind] at hok
      | none =>
          simp only [update_preferences, hu, hfind]
          simp only [get_preferences, get_user_by_session_prefs_frame, hu]
          by_cases hany : (db.prefs.any (prefsKeyFilter sessionId)) = true
          · simp only [hany, if_true]
            have hfound : (db.prefs.find? (prefsKeyFilter sessionId)).isSome := by
              rw [List.find?_isSome]
              exact List.any_eq_true.mp hany
            rw [Option.isSome_iff_exists] at hfound
            obtain ⟨r0, hr0⟩ := hfound
            have hupd : (updateFirst (prefsKeyFilter sessionId)
                (prefsSetRec sessionId user.userId m now) db.prefs).find?
                  (prefsKeyFilter sessionId) =
                (db.prefs.find? (prefsKeyFilter sessionId)).map
                  (prefsSetRec sessionId user.userId m now) := by
              refine find?_updateFirst ?_ _
              intro a _
              exact prefsKeyFilter_setRec sessionId user.userId m now a
            rw [hupd, hr0]
            simp [prefsSetRec_preferences]
          · simp only [hany, if_false, Bool.false_eq_true]
            have hnone : db.prefs.find? (prefsKeyFilter sessionId) = none := by
              rw [List.find?_eq_none]
              intro r hr hcontra
              exact hany (List.any_eq_true.mpr ⟨r, hr, hcontra⟩)
            rw [List.find?_append, hnone, Option.none_or,
              List.find?_cons_of_pos _
                (prefsKeyFilter_insRec sessionId user.userId m now)]
            simp [prefsInsRec_preferences]

/-- Witness for C8: writing the full default map through a Clerk session and
reading it back. -/
theorem preferences_round_trip_witness :
    DEFAULT_PREFERENCES.map Prod.fst = DEFAULT_PREFERENCES.map Prod.fst ∧
    (update_preferences c5Db "user_g1" DEFAULT_PREFERENCES 7).2 = .ok () ∧
    get_preferences
        (update_preferences c5Db "user_g1" DEFAULT_PREFERENCES 7).1
        "user_g1" = .ok DEFAULT_PREFERENCES :=
  ⟨rfl, by decide,
   preferences_round_trip c5Db "user_g1" DEFAULT_PREFERENCES 7 rfl
     (by decide)⟩

/-! ### C9: the admin tail/poll protocol -/

theorem mem_pollQuery {log : List ChatMsg} {cursor : Option Nat} {m : ChatMsg}
    (hm : m ∈ pollQuery log cursor) :
    m ∈ log ∧ m.sender ≠ "admin" ∧ ∀ c, cursor = some c → c < m.timestamp := by
  unfold pollQuery at hm
  rw [(List.perm_insertionSort tsLe _).mem_iff] at hm
  rw [List.mem_filter] at hm
  obtain ⟨hmem, hp⟩ := hm
  rw [Bool.and_eq_true] at hp
  obtain ⟨hs, hc⟩ := hp
  rw [bne_iff_ne] at hs
  refine ⟨hmem, hs, ?_⟩
  intro c hcur
  rw [hcur] at hc
  simpa using hc

theorem sorted_le_getLast {l : List ChatMsg} (hs : List.Sorted tsLe l)
    {x : ChatMsg} (hx : l.getLast? = some x) {m : ChatMsg} (hm : m ∈ l) :
    m.timestamp ≤ x.timestamp := by
  obtain ⟨ys, rfl⟩ := List.getLast?_eq_some_iff.mp hx
  rw [List.mem_append] at hm
  rcases hm with h | h
  · rw [List.Sorted, List.pairwise_append] at hs
    exact hs.2.2 m h x (List.mem_singleton_self x)
  · rw [List.mem_singleton] at h
    exact h ▸ Nat.le_refl _

/-- C9: one tick of the admin console's tail/poll loop never displays a
`sender=admin` message, never displays a message whose timestamp is at or
before the current cursor, displays the fetched messages in ascending
timestamp order, and advances the cursor to the timestamp of the last
displayed message (leaving it unchanged when nothing is displayed); every
message of any later tick is strictly newer than every message of this tick,
so no message is displayed twice. -/
theorem poll_tick_protocol (log : List ChatMsg) (cursor : Option Nat) :
    (∀ m ∈ (pollTick log cursor).1, m.sender ≠ "admin") ∧
    (∀ c, cursor = some c → ∀ m ∈ (pollTick log cursor).1, c < m.timestamp) ∧
    List.Sorted tsLe (pollTick log cursor).1 ∧
    (∀ x, (pollTick log cursor).1.getLast? = some x →
      (pollTick log cursor).2 = some x.timestamp) ∧
    ((pollTick log cursor).1 = [] → (pollTick log cursor).2 = cursor) ∧
    (∀ log2 m2, m2 ∈ (pollTick log2 (pollTick log cursor).2).1 →
      ∀ m ∈ (pollTick log cursor).1, m.timestamp < m2.timestamp) := by
  refine ⟨?_, ?_, ?_, ?_, ?_, ?_⟩
  · intro m hm
    exact (mem_pollQuery hm).2.1
  · intro c hc m hm
    exact (mem_pollQuery hm).2.2 c hc
  · exact List.sorted_insertionSort tsLe _
  · intro x hx
    have hx2 : (pollQuery log cursor).getLast? = some x := hx
    show (match (pollQuery log cursor).getLast? with
      | some mm => some mm.timestamp
      | none => cursor) = some x.timestamp
    rw [hx2]
  · intro hemp
    have hemp2 : pollQuery log cursor = [] := hemp
    show (match (pollQuery log cursor).getLast? with
      | some mm => some mm.timestamp
      | none => cursor) = cursor
    rw [hemp2]
    rfl
  · intro log2 m2 hm2 m hm
    cases hlast : (pollQuery log cursor).getLast? with
    | none =>
        rw [List.getLast?_eq_none_iff] at hlast
        have hmm : m ∈ pollQuery log cursor := hm
        rw [hlast] at hmm
        exact absurd hmm (List.not_mem_nil m)
    | some x =>
        have hcur2 : (pollTick log cursor).2 = some x.timestamp := by
          show (match (pollQuery log cursor).getLast? with
            | some mm => some mm.timestamp
            | none => cursor) = some x.timestamp
          rw [hlast]
        have hm2b : m2 ∈ pollQuery log2 ((pollTick log cursor).2) := hm2
        have hlt : x.timestamp < m2.timestamp :=
          (mem_pollQuery hm2b).2.2 x.timestamp hcur2
        have hle : m.timestamp ≤ x.timestamp :=
          sorted_le_getLast (List.sorted_insertionSort tsLe _) hlast hm
        exact Nat.lt_of_le_of_lt hle hlt

def c9Log : List ChatMsg :=
  [userMsg "hello" 1, botMsg 2,
   { text := "hi there", sender := "admin", timestamp := 3 },
   userMsg "thanks" 4]

/-- Witness for C9 at a concrete channel log and cursor. -/
theorem poll_tick_protocol_witness :
    (∀ m ∈ (pollTick c9Log (some 1)).1, m.sender ≠ "admin") ∧
    (∀ c, (some 1 : Option Nat) = some c →
      ∀ m ∈ (pollTick c9Log (some 1)).1, c < m.timestamp) ∧
    List.Sorted tsLe (pollTick c9Log (some 1)).1 ∧
    (∀ x, (pollTick c9Log (some 1)).1.getLast? = some x →
      (pollTick c9Log (some 1)).2 = some x.timestamp) ∧
    ((pollTick c9Log (some 1)).1 = [] →
      (pollTick c9Log (some 1)).2 = some 1) ∧
    (∀ log2 m2, m2 ∈ (pollTick log2 (pollTick c9Log (some 1)).2).1 →
      ∀ m ∈ (pollTick c9Log (some 1)).1, m.timestamp < m2.timestamp) :=
  poll_tick_protocol c9Log (some 1)
